import Mathlib

/-
Verification of the nwd WebDriver client (src/lib/webDriver.js) against its
design specification.

The JavaScript source is shallowly embedded below.  JSON payloads are the
inductive `JValue` (a missing `value` field of a response envelope is
`Option.none`), the error objects of the errors module are `DriverError`,
and callback-style results are encoded as explicit result types (e.g.
`GetIdsOut` records which of `callback(err, ...)` / `callback(null, null)` /
`callback(null, ids)` a code path performs).  Modules of the repository that
are not part of the embedded source file (utils, errors, webElement) are
modelled from the specification; each such definition carries a doc comment
starting with "Modelled from the spec:".
-/

/-- Parsed JSON values, as produced by JSON.parse on a response body.
`JValue.null` is the JSON `null`; an *absent* object field is represented
by `Option.none` at use sites. -/
inductive JValue where
  | null
  | bool (b : Bool)
  | num (n : Int)
  | str (s : String)
  | arr (elems : List JValue)
  | obj (fields : List (String × JValue))

/-- `value === null` in the source (`JValue.null` is the JS `null`). -/
def JValue.isNull : JValue → Bool
  | .null => true
  | _ => false

/-- `Array.isArray(value)` from the source (webDriver.js line 158). -/
def isArray : JValue → Bool
  | .arr _ => true
  | _ => false

/-- Modelled from the spec: the utils module (not under src/) provides a
type predicate "is a plain object" (spec section 6); true exactly on plain
keyed structures, not on arrays or primitives. -/
def isObject : JValue → Bool
  | .obj _ => true
  | _ => false

/-- Modelled from the spec: the utils module (not under src/) provides a
type predicate "is an empty plain object" (spec section 6). -/
def isEmptyObject : JValue → Bool
  | .obj [] => true
  | _ => false

/-- What `_cmd` passes to its callback on a status-0 response
(webDriver.js lines 153-161): the raw envelope (`res`), the payload
`res.data.value`, or the driver itself (`self`). -/
inductive CmdResult where
  | raw
  | value (v : JValue)
  | selfRef

/-- The result-unwrapping rule, transcribed from `_cmd`
(webDriver.js lines 155-161):

  callback(null, params.resNeeded ? res : (
    value !== undefined && value !== null && (Array.isArray(value) ||
    !utils.isObject(value) || !utils.isEmptyObject(value))
      ? res.data.value : self))

`resNeeded` is the descriptor flag, `value` is the envelope's `value`
field (`none` when the field is absent, i.e. JS `undefined`). -/
def cmdUnwrap (resNeeded : Bool) (value : Option JValue) : CmdResult :=
  if resNeeded then .raw
  else
    match value with
    | none => .selfRef
    | some v =>
      if !v.isNull && (isArray v || !isObject v || !isEmptyObject v) then
        .value v
      else .selfRef

/-- C1: for a dispatched command whose response envelope has status 0,
when the descriptor requests the raw envelope the envelope itself is
returned; otherwise the envelope's `value` field is returned exactly when
it is present, non-null, and an array, a non-object value, or a non-empty
plain object; and the driver's own self reference is returned instead
exactly when `value` is absent, null, or an empty plain object. -/
theorem cmd_result_unwrapping :
    (∀ value : Option JValue, cmdUnwrap true value = .raw)
    ∧ (∀ v : JValue, cmdUnwrap false (some v) = .value v ↔
        v.isNull = false
        ∧ (isArray v = true ∨ isObject v = false ∨ isEmptyObject v = false))
    ∧ (∀ value : Option JValue, cmdUnwrap false value = .selfRef ↔
        (value = none ∨ value = some .null ∨ value = some (.obj []))) := by
  refine ⟨fun value => rfl, fun v => ?_, fun value => ?_⟩
  · cases v with
    | null => simp [cmdUnwrap, JValue.isNull, isArray, isObject, isEmptyObject]
    | bool b => simp [cmdUnwrap, JValue.isNull, isArray, isObject, isEmptyObject]
    | num n => simp [cmdUnwrap, JValue.isNull, isArray, isObject, isEmptyObject]
    | str s => simp [cmdUnwrap, JValue.isNull, isArray, isObject, isEmptyObject]
    | arr elems => simp [cmdUnwrap, JValue.isNull, isArray, isObject, isEmptyObject]
    | obj fields =>
      cases fields with
      | nil => simp [cmdUnwrap, JValue.isNull, isArray, isObject, isEmptyObject]
      | cons f fs => simp [cmdUnwrap, JValue.isNull, isArray, isObject, isEmptyObject]
  · cases value with
    | none => simp [cmdUnwrap]
    | some v =>
      cases v with
      | null => simp [cmdUnwrap, JValue.isNull, isArray, isObject, isEmptyObject]
      | bool b => simp [cmdUnwrap, JValue.isNull, isArray, isObject, isEmptyObject]
      | num n => simp [cmdUnwrap, JValue.isNull, isArray, isObject, isEmptyObject]
      | str s => simp [cmdUnwrap, JValue.isNull, isArray, isObject, isEmptyObject]
      | arr elems => simp [cmdUnwrap, JValue.isNull, isArray, isObject, isEmptyObject]
      | obj fields =>
        cases fields with
        | nil => simp [cmdUnwrap, JValue.isNull, isArray, isObject, isEmptyObject]
        | cons f fs => simp [cmdUnwrap, JValue.isNull, isArray, isObject, isEmptyObject]

/-
Error taxonomy.  The errors module is not under src/ (only its callers
are); it is modelled from the spec (sections 4.1 and 7).
-/

/-- Modelled from the spec: the error taxonomy (section 7) — transport
failure, malformed-response protocol error, protocol status errors (one
kind per status code, "no such element" and "stale element reference"
having special handling elsewhere), timeout error, and local programming
errors. -/
inductive ErrKind where
  | noSuchElement
  | staleElementReference
  | protocolStatus (status : Nat)
  | protocolParse (msg : String)
  | transport (msg : String)
  | script (msg : String)
  | timeoutErr (msg : String)
  | localError (msg : String)
  deriving DecidableEq

/-- Context parameters attached to an error (selector text, strategy
name, ...), as key/value pairs. -/
abbrev ErrCtx := List (String × String)

/-- Modelled from the spec: an error instance — a kind plus structured,
appendable context (spec section 4.1: "Every error instance supports an
idempotent parametrize(context) operation that records arbitrary
key/value context ... after the fact"). -/
structure DriverError where
  kind : ErrKind
  params : ErrCtx
  deriving DecidableEq

/-- Modelled from the spec: `err.parametrize(context)` (spec sections 4.1
and 7) records the given key/value context on the error; it is total (it
never itself fails) and idempotent (re-recording the same keys is a
no-op): the new context wins by key over previously recorded context. -/
def DriverError.parametrize (e : DriverError) (ctx : ErrCtx) : DriverError :=
  { e with
    params := ctx ++ e.params.filter (fun kv => !(ctx.any (fun kv2 => kv2.1 == kv.1))) }

/-- A server-side element identifier (opaque string). -/
abbrev ElemId := String

/-- A wire-protocol element reference, the JSON shape with a single
`ELEMENT` field that the server (and the injected script's result
serialization) uses for a DOM node. -/
structure ElementRef where
  ELEMENT : ElemId
  deriving DecidableEq

/-
The selector resolution engine `_getIds` (webDriver.js lines 385-433).
Its callback-visible outcomes:
-/

/-- The pair the `_getIds` callback is invoked with:
`callback(err, false)`, `callback(null, null)` (the `noError`
suppression path), `callback(null, elements[0])` (single-result;
`none` models the JS `undefined` of `[][0]`), or
`callback(null, ids)` (multi-result). -/
inductive GetIdsOut where
  | err (e : DriverError)
  | nullOut
  | single (id : Option ElemId)
  | many (ids : List ElemId)
  deriving DecidableEq

/-- The value carried by the native find-element command's status-0
response: a single element reference for `POST /element`, a list of
references for `POST /elements`. -/
inductive CmdValue where
  | element (e : ElementRef)
  | elements (es : List ElementRef)
  deriving DecidableEq

/-- Modelled from the spec: the remote server's native find-element
lookup (spec sections 4.3 and 7; the errors module and the server are
not under src/).  For a single-result query a selector with zero
matches is reported as a "no such element" protocol status error; a
multi-result query reports the (possibly empty) list of matches. -/
def nativeLookup (found : List ElementRef) (isSingle : Bool) :
    Except DriverError CmdValue :=
  if isSingle then
    match found with
    | [] => .error { kind := .noSuchElement, params := [] }
    | e :: _ => .ok (.element e)
  else .ok (.elements found)

/-- The native-strategy continuation of `_getIds` (webDriver.js lines
418-425), applied to the `_cmd` outcome of the find-element command:

  if (err && params.noError && err instanceof errors.NoSuchElementError)
    return callback(null, null);
  callback(parametrizeError(err), !err && (params.isSingle
    ? value.ELEMENT : value.map(function(item) \x7b return item.ELEMENT; \x7d)));

with `parametrizeError` (lines 428-432) attaching the selector and the
strategy name as context. -/
def getIdsNative (selector usingStrategy : String) (isSingle noError : Bool)
    (cmdOut : Except DriverError CmdValue) : GetIdsOut :=
  match cmdOut with
  | .error err =>
    if noError && err.kind == .noSuchElement then .nullOut
    else .err (err.parametrize [("element", selector), ("using", usingStrategy)])
  | .ok value =>
    if isSingle then
      .single (match value with
        | .element e => some e.ELEMENT
        | .elements _ => none)
    else
      .many (match value with
        | .elements es => es.map (fun item => item.ELEMENT)
        | .element _ => [])

/-- The custom-strategy continuation of `_getIds` (webDriver.js lines
399-404), applied to the outcome a custom strategy (jquery) passes to
its callback:

  if (err && params.noError && err instanceof errors.NoSuchElementError)
    return callback(null, null);
  callback(parametrizeError(err),
    !err && (params.isSingle ? elements[0] : elements));
-/
def getIdsCustom (selector usingStrategy : String) (isSingle noError : Bool)
    (strategyOut : Except DriverError (List ElemId)) : GetIdsOut :=
  match strategyOut with
  | .error err =>
    if noError && err.kind == .noSuchElement then .nullOut
    else .err (err.parametrize [("element", selector), ("using", usingStrategy)])
  | .ok elements =>
    if isSingle then .single elements.head?
    else .many elements

/-- The error (if any) that `_getIds` reports to its caller. -/
def errOf : GetIdsOut → Option DriverError
  | .err e => some e
  | _ => none

/-- C9: every error returned by selector resolution — whatever its kind —
has had `parametrize` with the selector and the strategy name applied to
it before being passed to the callback; in particular both context keys
are recorded on it (and the modelled `parametrize` is a total operation,
so attaching context cannot itself fail). -/
theorem resolution_errors_parametrized
    (selector usingStrategy : String) (isSingle noError : Bool)
    (cmdOut : Except DriverError CmdValue)
    (strategyOut : Except DriverError (List ElemId)) (e : DriverError)
    (h : errOf (getIdsNative selector usingStrategy isSingle noError cmdOut) = some e
      ∨ errOf (getIdsCustom selector usingStrategy isSingle noError strategyOut) = some e) :
    (∃ base : DriverError,
      e = base.parametrize [("element", selector), ("using", usingStrategy)])
    ∧ ("element", selector) ∈ e.params
    ∧ ("using", usingStrategy) ∈ e.params := by
  have hmem : ∀ base : DriverError,
      ("element", selector) ∈
        (base.parametrize [("element", selector), ("using", usingStrategy)]).params
      ∧ ("using", usingStrategy) ∈
        (base.parametrize [("element", selector), ("using", usingStrategy)]).params := by
    intro base
    constructor
    · exact List.mem_append_left _ (by simp)
    · exact List.mem_append_left _ (by simp)
  rcases h with h | h
  · rcases cmdOut with err | value
    · cases hc : (noError && err.kind == ErrKind.noSuchElement) with
      | true => simp [getIdsNative, hc, errOf] at h
      | false =>
        simp [getIdsNative, hc, errOf] at h
        subst h
        exact ⟨⟨err, rfl⟩, hmem err⟩
    · cases hs : isSingle <;> simp [getIdsNative, hs, errOf] at h
  · rcases strategyOut with err | elements
    · cases hc : (noError && err.kind == ErrKind.noSuchElement) with
      | true => simp [getIdsCustom, hc, errOf] at h
      | false =>
        simp [getIdsCustom, hc, errOf] at h
        subst h
        exact ⟨⟨err, rfl⟩, hmem err⟩
    · cases hs : isSingle <;> simp [getIdsCustom, hs, errOf] at h

/-- Witness for C9: a transport error flowing through the native branch
of `_getIds` comes out with the selector/strategy context attached. -/
theorem resolution_errors_parametrized_witness :
    (∃ base : DriverError,
      ({ kind := ErrKind.transport "socket hang up",
         params := [("element", "[name=login]"), ("using", "css selector")] } : DriverError)
        = base.parametrize [("element", "[name=login]"), ("using", "css selector")])
    ∧ ("element", "[name=login]") ∈
        ([("element", "[name=login]"), ("using", "css selector")] : ErrCtx)
    ∧ ("using", "css selector") ∈
        ([("element", "[name=login]"), ("using", "css selector")] : ErrCtx) := by
  exact resolution_errors_parametrized "[name=login]" "css selector" true false
    (.error { kind := ErrKind.transport "socket hang up", params := [] })
    (.ok []) { kind := ErrKind.transport "socket hang up",
               params := [("element", "[name=login]"), ("using", "css selector")] }
    (Or.inl rfl)

/-
The script-injection (jquery) strategy: the injected selection function
`___nwdJqGetElements` (webDriver.js lines 261-286), the bootstrap
sentinel script (lines 295-306) and the client retry loop
`jqueryGetElementIds` (lines 291-335).
-/

/-- A chained traversal step: a single-key object, operation name
mapped to its argument (e.g. `[ (closest, span), (next, div) ]`);
`$.each` over the object reads the first key/value pair
(webDriver.js lines 271-275). -/
abbrev ChainStep := String × JValue

/-- `args = $.isArray(args) ? args : [args]` (webDriver.js line 277). -/
def wrapArgs : JValue → List JValue
  | .arr xs => xs
  | v => [v]

/-- The selection library's method table, abstracting the jquery object:
an operation name either is a function of the library (acting on the
given arguments and the current element set) or is not defined
(`!elements[func]`). -/
abbrev JqMethods := String → Option (List JValue → List ElementRef → List ElementRef)

/-- The chain-application loop of `___nwdJqGetElements`
(webDriver.js lines 268-282): steps are applied left to right; an
operation name that is not a function of the library throws
`Unknown jquery method: <name>`. -/
def applyChain (methods : JqMethods) :
    List ChainStep → List ElementRef → Except String (List ElementRef)
  | [], elements => .ok elements
  | (func, args) :: rest, elements =>
    match methods func with
    | none => .error ("Unknown jquery method: " ++ func)
    | some g => applyChain methods rest (g (wrapArgs args) elements)

/-- `___nwdJqGetElements(selector, parent, chain)`
(webDriver.js lines 263-285): `found` models `$(selector, parent)`.
The chain is applied only when the initial selection is non-empty and a
chain was passed (`if (elements && elements.length && chain)`); note
that a JS empty array is truthy, so `some []` applies zero steps.  The
final `return elements && elements.length ? elements.get() : []`
returns the resulting (possibly empty) list. -/
def nwdJqGetElements (methods : JqMethods) (found : List ElementRef)
    (chain : Option (List ChainStep)) : Except String (List ElementRef) :=
  match chain with
  | none => .ok found
  | some ch =>
    if found.isEmpty then .ok []
    else applyChain methods ch found

/-- The source text prepended to the bootstrap script on a retry
(`addInjection`): nothing on the bare first attempt, the jquery library
source alone (`jqueryInjection`, used by waitForDocumentReady), the
selection function source alone (`jqueryGetElementsInjection`), or the
concatenation of both (`jqueryAndGetElementsInjection`,
webDriver.js line 288). -/
inductive Inj where
  | bare
  | jqOnly
  | funcOnly
  | both
  deriving DecidableEq

/-- Whether the prepended source defines the local `___nwdJquery`. -/
def Inj.hasJqSource : Inj → Bool
  | .jqOnly => true
  | .both => true
  | _ => false

/-- Whether the prepended source defines the local
`___nwdJqGetElements`. -/
def Inj.hasFuncSource : Inj → Bool
  | .funcOnly => true
  | .both => true
  | _ => false

/-- The page's global state as seen by the bootstrap script: whether
`window.___nwdJquery` and `window.___nwdJqGetElements` are installed. -/
structure Page where
  hasJq : Bool
  hasFunc : Bool
  deriving DecidableEq

/-- What one execution of the injected script reports back: a sentinel
string, the selected element references, or a thrown script error
(surfaced by the server as an execute error). -/
inductive BootResult where
  | needJquery
  | needFunc
  | ok (refs : List ElementRef)
  | scriptError (msg : String)
  deriving DecidableEq

/-- The environment the injected script runs against: the selection
library's method table and the selection `$(selector, parent)`. -/
structure JqEnv where
  methods : JqMethods
  find : String → Option ElemId → List ElementRef

/-- The selection part of the bootstrap script: runs
`___nwdJqGetElements(arguments[0], arguments[1], arguments[2])`
(webDriver.js line 305); a thrown error becomes a script error. -/
def runSelection (env : JqEnv) (page : Page) (selector : String)
    (parent : Option ElemId) (chain : Option (List ChainStep)) :
    BootResult × Page :=
  match nwdJqGetElements env.methods (env.find selector parent) chain with
  | .error msg => (.scriptError msg, page)
  | .ok refs => (.ok refs, page)

/-- The `___nwdJqGetElements` installation check of the bootstrap script
(webDriver.js lines 301-304). -/
def bootFunc (env : JqEnv) (inj : Inj) (page : Page) (selector : String)
    (parent : Option ElemId) (chain : Option (List ChainStep)) :
    BootResult × Page :=
  if page.hasFunc then runSelection env page selector parent chain
  else if inj.hasFuncSource then
    runSelection env { page with hasFunc := true } selector parent chain
  else (.needFunc, page)

/-- One execution of the injected bootstrap script
(webDriver.js lines 295-306): check/install the jquery library, then
check/install the selection function, then select. -/
def runBootstrap (env : JqEnv) (inj : Inj) (page : Page) (selector : String)
    (parent : Option ElemId) (chain : Option (List ChainStep)) :
    BootResult × Page :=
  if page.hasJq then bootFunc env inj page selector parent chain
  else if inj.hasJqSource then
    bootFunc env inj { page with hasJq := true } selector parent chain
  else (.needJquery, page)

/-- The client retry loop of `jqueryGetElementIds`
(webDriver.js lines 293-334): on a string result re-execute, with
`jqueryAndGetElementsInjection` prepended for the `needJquery` sentinel
and `jqueryGetElementsInjection` prepended otherwise (line 312).
`disturb` lets the page's global state change arbitrarily between
executions (navigation etc.); the returned trace records the injection
used by each execution.  `fuel` bounds the recursion for the embedding;
`jq_bootstrap_sequences` shows fuel 3 always suffices. -/
def jqLoop (env : JqEnv) (disturb : Nat → Page → Page) (selector : String)
    (parent : Option ElemId) (chain : Option (List ChainStep)) :
    Nat → Inj → Page → Nat → List Inj → Option BootResult × List Inj
  | 0, _, _, _, trace => (none, trace)
  | fuel + 1, inj, page, k, trace =>
    match runBootstrap env inj (disturb k page) selector parent chain with
    | (.needJquery, page2) =>
      jqLoop env disturb selector parent chain fuel .both page2 (k + 1) (trace ++ [inj])
    | (.needFunc, page2) =>
      jqLoop env disturb selector parent chain fuel .funcOnly page2 (k + 1) (trace ++ [inj])
    | (r, _) => (some r, trace ++ [inj])

/-- The whole sentinel-triggered installation sequence, starting from the
bare attempt (`execute()` at webDriver.js line 334). -/
def jqRun (env : JqEnv) (disturb : Nat → Page → Page) (selector : String)
    (parent : Option ElemId) (chain : Option (List ChainStep)) (p0 : Page) :
    Option BootResult × List Inj :=
  jqLoop env disturb selector parent chain 3 .bare p0 0 []

/-- The value a completed (non-sentinel) execution of the injected
script reports: it depends only on the environment, the selector, the
parent and the chain. -/
def selectionResult (env : JqEnv) (selector : String) (parent : Option ElemId)
    (chain : Option (List ChainStep)) : BootResult :=
  match nwdJqGetElements env.methods (env.find selector parent) chain with
  | .error msg => .scriptError msg
  | .ok refs => .ok refs

theorem runSelection_fst (env : JqEnv) (page : Page) (selector : String)
    (parent : Option ElemId) (chain : Option (List ChainStep)) :
    (runSelection env page selector parent chain).1
      = selectionResult env selector parent chain := by
  unfold runSelection selectionResult
  cases nwdJqGetElements env.methods (env.find selector parent) chain <;> rfl

/-- Any single execution of the bootstrap script either reports a
sentinel or completes with the selection result. -/
theorem runBootstrap_fst_cases (env : JqEnv) (inj : Inj) (page : Page)
    (selector : String) (parent : Option ElemId)
    (chain : Option (List ChainStep)) :
    (runBootstrap env inj page selector parent chain).1 = .needJquery
    ∨ (runBootstrap env inj page selector parent chain).1 = .needFunc
    ∨ (runBootstrap env inj page selector parent chain).1
        = selectionResult env selector parent chain := by
  unfold runBootstrap bootFunc
  rcases page with ⟨hj, hf⟩
  cases hj <;> cases hf <;> cases hi1 : inj.hasJqSource <;>
    cases hi2 : inj.hasFuncSource <;>
      simp [hi1, hi2, runSelection_fst]

/-- With both sources prepended the bootstrap never reports a sentinel:
it always completes. -/
theorem runBootstrap_both_fst (env : JqEnv) (page : Page) (selector : String)
    (parent : Option ElemId) (chain : Option (List ChainStep)) :
    (runBootstrap env .both page selector parent chain).1
      = selectionResult env selector parent chain := by
  unfold runBootstrap bootFunc
  rcases page with ⟨hj, hf⟩
  cases hj <;> cases hf <;> simp [Inj.hasJqSource, Inj.hasFuncSource, runSelection_fst]

/-- With the selection function's source prepended the bootstrap cannot
ask for the selection function again: it either asks for the library or
completes. -/
theorem runBootstrap_funcOnly_fst (env : JqEnv) (page : Page) (selector : String)
    (parent : Option ElemId) (chain : Option (List ChainStep)) :
    (runBootstrap env .funcOnly page selector parent chain).1 = .needJquery
    ∨ (runBootstrap env .funcOnly page selector parent chain).1
        = selectionResult env selector parent chain := by
  unfold runBootstrap bootFunc
  rcases page with ⟨hj, hf⟩
  cases hj <;> cases hf <;> simp [Inj.hasJqSource, Inj.hasFuncSource, runSelection_fst]

theorem jqLoop_succ (env : JqEnv) (disturb : Nat → Page → Page) (selector : String)
    (parent : Option ElemId) (chain : Option (List ChainStep))
    (fuel : Nat) (inj : Inj) (page : Page) (k : Nat) (trace : List Inj) :
    jqLoop env disturb selector parent chain (fuel + 1) inj page k trace =
      match runBootstrap env inj (disturb k page) selector parent chain with
      | (.needJquery, page2) =>
        jqLoop env disturb selector parent chain fuel .both page2 (k + 1) (trace ++ [inj])
      | (.needFunc, page2) =>
        jqLoop env disturb selector parent chain fuel .funcOnly page2 (k + 1) (trace ++ [inj])
      | (r, _) => (some r, trace ++ [inj]) := rfl

/-- The whole retry loop, for any environment, any initial page state
and any interference with the page between executions, terminates
within three executions (fuel 3 is never exhausted), reports exactly
the selection result, and uses one of four injection sequences. -/
theorem jqRun_spec (env : JqEnv) (disturb : Nat → Page → Page) (selector : String)
    (parent : Option ElemId) (chain : Option (List ChainStep)) (p0 : Page) :
    (jqRun env disturb selector parent chain p0).1
      = some (selectionResult env selector parent chain)
    ∧ ((jqRun env disturb selector parent chain p0).2 = [.bare]
      ∨ (jqRun env disturb selector parent chain p0).2 = [.bare, .both]
      ∨ (jqRun env disturb selector parent chain p0).2 = [.bare, .funcOnly]
      ∨ (jqRun env disturb selector parent chain p0).2 = [.bare, .funcOnly, .both]) := by
  unfold jqRun
  rw [show (3 : Nat) = 2 + 1 from rfl, jqLoop_succ]
  rcases h1 : runBootstrap env .bare (disturb 0 p0) selector parent chain with ⟨r1, q1⟩
  have hc1 := runBootstrap_fst_cases env .bare (disturb 0 p0) selector parent chain
  rw [h1] at hc1
  rcases hc1 with hc1 | hc1 | hc1
  · -- first sentinel: needJquery; retry with both sources prepended
    subst hc1
    dsimp only
    rw [show (2 : Nat) = 1 + 1 from rfl, jqLoop_succ]
    rcases h2 : runBootstrap env .both (disturb (0 + 1) q1) selector parent chain with ⟨r2, q2⟩
    have hc2 := runBootstrap_both_fst env (disturb (0 + 1) q1) selector parent chain
    rw [h2] at hc2
    subst hc2
    cases hsel : nwdJqGetElements env.methods (env.find selector parent) chain <;>
      simp [selectionResult, hsel]
  · -- first sentinel: needFunc; retry with the selection function prepended
    subst hc1
    dsimp only
    rw [show (2 : Nat) = 1 + 1 from rfl, jqLoop_succ]
    rcases h2 : runBootstrap env .funcOnly (disturb (0 + 1) q1) selector parent chain with ⟨r2, q2⟩
    have hc2 := runBootstrap_funcOnly_fst env (disturb (0 + 1) q1) selector parent chain
    rw [h2] at hc2
    rcases hc2 with hc2 | hc2
    · -- second sentinel: needJquery; retry with both sources prepended
      subst hc2
      dsimp only
      rw [show (1 : Nat) = 0 + 1 from rfl, jqLoop_succ]
      rcases h3 : runBootstrap env .both (disturb (0 + 1 + 1) q2) selector parent chain with ⟨r3, q3⟩
      have hc3 := runBootstrap_both_fst env (disturb (0 + 1 + 1) q2) selector parent chain
      rw [h3] at hc3
      subst hc3
      cases hsel : nwdJqGetElements env.methods (env.find selector parent) chain <;>
        simp [selectionResult, hsel]
    · subst hc2
      cases hsel : nwdJqGetElements env.methods (env.find selector parent) chain <;>
        simp [selectionResult, hsel]
  · subst hc1
    cases hsel : nwdJqGetElements env.methods (env.find selector parent) chain <;>
      simp [selectionResult, hsel]

/-- C4 (amended): the sentinel-triggered installation sequence is
bounded — for every environment, initial page state and page
interference, the injected script is executed at most three times
(the bare attempt plus at most two sentinel-triggered re-executions)
and the loop completes within that bound; the only possible injection
sequences are bare; bare then both; bare then the selection function
alone; bare then the selection function alone then both.  In
particular a `needFunc` sentinel re-executes with the selection
function's source prepended and a `needJquery` sentinel re-executes
with both sources prepended — never an unbounded retry. -/
theorem jq_bootstrap_bounded (env : JqEnv) (disturb : Nat → Page → Page)
    (selector : String) (parent : Option ElemId)
    (chain : Option (List ChainStep)) (p0 : Page) :
    (jqRun env disturb selector parent chain p0).1.isSome = true
    ∧ (jqRun env disturb selector parent chain p0).2.length ≤ 3
    ∧ ((jqRun env disturb selector parent chain p0).2 = [.bare]
      ∨ (jqRun env disturb selector parent chain p0).2 = [.bare, .both]
      ∨ (jqRun env disturb selector parent chain p0).2 = [.bare, .funcOnly]
      ∨ (jqRun env disturb selector parent chain p0).2 = [.bare, .funcOnly, .both]) := by
  have h := jqRun_spec env disturb selector parent chain p0
  refine ⟨by rw [h.1]; rfl, ?_, h.2⟩
  rcases h.2 with h2 | h2 | h2 | h2 <;> simp [h2]

/-- Counterexample for C4 as stated: on a page where the selection
function is already installed and only the jquery library is missing,
the first (and only) sentinel is `needJquery` — the missing piece is
the library — yet the single re-execution prepends
`jqueryAndGetElementsInjection`, i.e. both the library and the
selection function (`Inj.both`), not the missing piece's source alone
(`Inj.jqOnly`); and no second sentinel occurs in this run. -/
theorem jq_bootstrap_first_sentinel_ce :
    jqRun { methods := fun _ => none, find := fun _ _ => [⟨"e1"⟩] }
        (fun _ p => p) "form" none none ⟨false, true⟩
      = (some (.ok [⟨"e1"⟩]), [.bare, .both])
    ∧ Inj.both ≠ Inj.jqOnly
    ∧ Inj.both.hasFuncSource = true := by
  exact ⟨rfl, by decide, rfl⟩

/-
The client half of the jquery strategy, `jqueryGetElementIds`
(webDriver.js lines 291-335): run the retry loop, then apply the
empty/non-empty policy to the completed result.
-/

/-- The terminal handling of `jqueryGetElementIds` (webDriver.js lines
309-331) composed with the retry loop: an execute error is passed to
the callback; a completed result is mapped to its element ids
(`elements.map(function(element) \x7b return element.ELEMENT; \x7d)`); an
empty result is a `NoSuchElementError(\x7belement, using\x7d)` for a
single-result query and `callback(null, [])` for a multi-result query.
The fuel-exhausted/sentinel fallback case is unreachable by
`jqRun_spec`. -/
def jqueryGetElementIds (env : JqEnv) (disturb : Nat → Page → Page) (p0 : Page)
    (selector usingStrategy : String) (parentId : Option ElemId)
    (chain : Option (List ChainStep)) (isSingle : Bool) :
    Except DriverError (List ElemId) :=
  match (jqRun env disturb selector parentId chain p0).1 with
  | some (.ok refs) =>
    let elements := refs.map (fun element => element.ELEMENT)
    if elements.isEmpty then
      if isSingle then
        .error { kind := .noSuchElement,
                 params := [("element", selector), ("using", usingStrategy)] }
      else .ok []
    else .ok elements
  | some (.scriptError msg) => .error { kind := .script msg, params := [] }
  | _ => .error { kind := .script "bootstrap did not complete", params := [] }

/-- If some step of the chain names an operation that is not a function
of the selection library, the chain-application loop throws at the
first such step. -/
theorem applyChain_unknown (methods : JqMethods) :
    ∀ (ch : List ChainStep) (elements : List ElementRef),
      (∃ step ∈ ch, methods step.1 = none) →
      ∃ msg, applyChain methods ch elements = .error msg := by
  intro ch
  induction ch with
  | nil =>
    intro elements h
    rcases h with ⟨s, hs, _⟩
    exact absurd hs (List.not_mem_nil s)
  | cons hd tl ih =>
    intro elements h
    rcases hd with ⟨func, args⟩
    cases hm : methods func with
    | none => exact ⟨"Unknown jquery method: " ++ func, by simp [applyChain, hm]⟩
    | some g =>
      rcases h with ⟨s, hs, hnone⟩
      rcases List.mem_cons.mp hs with rfl | hs2
      · rw [hm] at hnone
        cases hnone
      · have := ih (g (wrapArgs args) elements) ⟨s, hs2, hnone⟩
        simpa [applyChain, hm] using this

/-- C5 (amended): a script-strategy (jquery) query whose chain contains
a step with an operation name that is not a function of the selection
library surfaces an error through the normal error channel whenever the
selector matches at least one element (the chain is only applied to a
non-empty selection); it never completes successfully in that case. -/
theorem jquery_unknown_chain_op_errors (env : JqEnv) (disturb : Nat → Page → Page)
    (p0 : Page) (selector usingStrategy : String) (parentId : Option ElemId)
    (ch : List ChainStep) (isSingle noError : Bool)
    (hfind : env.find selector parentId ≠ [])
    (hstep : ∃ step ∈ ch, env.methods step.1 = none) :
    ∃ e msg, getIdsCustom selector usingStrategy isSingle noError
        (jqueryGetElementIds env disturb p0 selector usingStrategy parentId (some ch) isSingle)
      = .err e ∧ e.kind = .script msg := by
  obtain ⟨msg, hmsg⟩ := applyChain_unknown env.methods ch (env.find selector parentId) hstep
  have hne : (env.find selector parentId).isEmpty = false := by
    cases hl : env.find selector parentId with
    | nil => exact absurd hl hfind
    | cons a as => rfl
  have hsel : nwdJqGetElements env.methods (env.find selector parentId) (some ch)
      = .error msg := by
    simp [nwdJqGetElements, hne, hmsg]
  have hselr : selectionResult env selector parentId (some ch) = .scriptError msg := by
    simp [selectionResult, hsel]
  have hrun := (jqRun_spec env disturb selector parentId (some ch) p0).1
  rw [hselr] at hrun
  have hjq : jqueryGetElementIds env disturb p0 selector usingStrategy parentId
      (some ch) isSingle = .error { kind := .script msg, params := [] } := by
    simp [jqueryGetElementIds, hrun]
  refine ⟨({ kind := .script msg, params := [] } : DriverError).parametrize
    [("element", selector), ("using", usingStrategy)], msg, ?_, rfl⟩
  rw [hjq]
  simp [getIdsCustom]

/-- Witness for C5 (amended): a one-element selection with the chain
step `(bogus, null)` against a library with no methods yields a script
error through the error channel. -/
theorem jquery_unknown_chain_op_errors_witness :
    ∃ e msg, getIdsCustom "a" "jquery" true false
        (jqueryGetElementIds { methods := fun _ => none, find := fun _ _ => [⟨"e1"⟩] }
          (fun _ p => p) ⟨true, true⟩ "a" "jquery" none
          (some [("bogus", JValue.null)]) true)
      = .err e ∧ e.kind = .script msg := by
  exact jquery_unknown_chain_op_errors
    { methods := fun _ => none, find := fun _ _ => [⟨"e1"⟩] }
    (fun _ p => p) ⟨true, true⟩ "a" "jquery" none
    [("bogus", JValue.null)] true false
    (by simp)
    ⟨("bogus", JValue.null), by simp, rfl⟩

/-- Counterexample for C5 as stated: for a selector matching zero
elements, a multi-result jquery query whose chain contains the unknown
operation `bogus` completes successfully with `callback(null, [])` —
no error is surfaced, because the injected script applies the chain
only when the initial selection is non-empty
(webDriver.js line 267). -/
theorem jquery_unknown_chain_op_zero_match_ce :
    getIdsCustom "nomatch" "jquery" false false
      (jqueryGetElementIds { methods := fun _ => none, find := fun _ _ => [] }
        (fun _ p => p) ⟨true, true⟩ "nomatch" "jquery" none
        (some [("bogus", JValue.null)]) false)
      = .many [] := rfl

/-- C3: for a selector with zero matches, a single-result query yields
a "no such element" error when `noError` is unset and the callback pair
(null, null) when it is set, while a multi-result query yields
(null, []) — no error and an empty list — whatever the `noError` flag;
for the native find-element strategy and the script-injection
(jquery) strategy alike. -/
theorem zero_match_policy (selector usingStrategy : String)
    (env : JqEnv) (disturb : Nat → Page → Page) (p0 : Page)
    (parentId : Option ElemId) (chain : Option (List ChainStep))
    (hfind : env.find selector parentId = []) :
    (∃ e, getIdsNative selector usingStrategy true false (nativeLookup [] true) = .err e
      ∧ e.kind = .noSuchElement)
    ∧ getIdsNative selector usingStrategy true true (nativeLookup [] true) = .nullOut
    ∧ (∀ noError, getIdsNative selector usingStrategy false noError
        (nativeLookup [] false) = .many [])
    ∧ (∃ e, getIdsCustom selector usingStrategy true false
          (jqueryGetElementIds env disturb p0 selector usingStrategy parentId chain true)
        = .err e ∧ e.kind = .noSuchElement)
    ∧ getIdsCustom selector usingStrategy true true
        (jqueryGetElementIds env disturb p0 selector usingStrategy parentId chain true)
      = .nullOut
    ∧ (∀ noError, getIdsCustom selector usingStrategy false noError
        (jqueryGetElementIds env disturb p0 selector usingStrategy parentId chain false)
      = .many []) := by
  have hok : nwdJqGetElements env.methods (env.find selector parentId) chain = .ok [] := by
    rw [hfind]
    cases chain <;> simp [nwdJqGetElements]
  have hselr : selectionResult env selector parentId chain = .ok [] := by
    simp [selectionResult, hok]
  have hrun := (jqRun_spec env disturb selector parentId chain p0).1
  rw [hselr] at hrun
  have hjq1 : jqueryGetElementIds env disturb p0 selector usingStrategy parentId chain true
      = .error { kind := .noSuchElement,
                 params := [("element", selector), ("using", usingStrategy)] } := by
    simp [jqueryGetElementIds, hrun]
  have hjq2 : jqueryGetElementIds env disturb p0 selector usingStrategy parentId chain false
      = .ok [] := by
    simp [jqueryGetElementIds, hrun]
  refine ⟨⟨{ kind := .noSuchElement,
             params := [("element", selector), ("using", usingStrategy)] }, rfl, rfl⟩,
    rfl, fun noError => rfl, ?_, ?_, fun noError => by rw [hjq2]; rfl⟩
  · rw [hjq1]
    exact ⟨{ kind := .noSuchElement,
             params := [("element", selector), ("using", usingStrategy)] }, rfl, rfl⟩
  · rw [hjq1]
    simp [getIdsCustom]

/-- Witness for C3: the zero-match policy at a concrete environment
whose selection returns no elements, starting from a page with neither
injected piece installed. -/
theorem zero_match_policy_witness :
    (∃ e, getIdsNative "sel" "css selector" true false (nativeLookup [] true) = .err e
      ∧ e.kind = .noSuchElement)
    ∧ getIdsNative "sel" "css selector" true true (nativeLookup [] true) = .nullOut
    ∧ (∀ noError, getIdsNative "sel" "css selector" false noError
        (nativeLookup [] false) = .many [])
    ∧ (∃ e, getIdsCustom "sel" "css selector" true false
          (jqueryGetElementIds { methods := fun _ => none, find := fun _ _ => [] }
            (fun _ p => p) ⟨false, false⟩ "sel" "css selector" none none true)
        = .err e ∧ e.kind = .noSuchElement)
    ∧ getIdsCustom "sel" "css selector" true true
        (jqueryGetElementIds { methods := fun _ => none, find := fun _ _ => [] }
          (fun _ p => p) ⟨false, false⟩ "sel" "css selector" none none true)
      = .nullOut
    ∧ (∀ noError, getIdsCustom "sel" "css selector" false noError
        (jqueryGetElementIds { methods := fun _ => none, find := fun _ _ => [] }
          (fun _ p => p) ⟨false, false⟩ "sel" "css selector" none none false)
      = .many []) := by
  exact zero_match_policy "sel" "css selector"
    { methods := fun _ => none, find := fun _ _ => [] }
    (fun _ p => p) ⟨false, false⟩ none none rfl

/-
The polling engine `waitFor` (webDriver.js lines 661-692), embedded as a
deterministic timer simulation.  Each call to the inner `execute()`
schedules TWO timers: a poll timer at `delay` ms (which invokes `func`)
and a deadline timer at `timeout` ms (lines 671-689) — the deadline
timer is re-created on every poll attempt, not started once.  Timers
fire in (time, creation order) order, as on the event loop.  The
predicate is modelled as reporting its boolean synchronously at each
poll (a `func` whose work completes within the poll delay).
-/

/-- A pending timer of the `waitFor` engine: the callback registered at
webDriver.js line 671 (poll) or line 681 (deadline). -/
inductive TimerKind where
  | poll
  | deadline
  deriving DecidableEq

/-- A scheduled timer: absolute fire time, creation sequence number
(the event loop fires equal-time timers in creation order), kind. -/
structure Timer where
  fireAt : Nat
  seq : Nat
  kind : TimerKind
  deriving DecidableEq

/-- One observable invocation of the `waitFor` caller's callback:
`callback(null, self)` on success (line 675), the timeout error
(lines 684-687), or `callback(null)` when `params.noError` is set. -/
inductive CbEvent where
  | success
  | timeoutError
  | noErrorNull
  deriving DecidableEq

/-- The engine's state: pending timers, the `isDone` and
`isTimeoutExceeded` flags (lines 668-669), the index of the next poll
attempt, the current time, the next timer sequence number, and the
recorded callback invocations. -/
structure WaitState where
  timers : List Timer
  isDone : Bool
  isTimeoutExceeded : Bool
  attempt : Nat
  now : Nat
  nextSeq : Nat
  events : List CbEvent
  deriving DecidableEq

/-- `execute()` (webDriver.js lines 670-690) called at time `t`:
schedules a poll timer at `t + delay` and a deadline timer at
`t + timeout`. -/
def schedExecute (delay timeout : Nat) (t : Nat) (s : WaitState) : WaitState :=
  { s with
    timers := s.timers ++
      [⟨t + delay, s.nextSeq, .poll⟩, ⟨t + timeout, s.nextSeq + 1, .deadline⟩],
    nextSeq := s.nextSeq + 2 }

/-- `a` fires no later than `b` (lexicographic on time, then creation
order). -/
def timerLE (a b : Timer) : Bool :=
  a.fireAt < b.fireAt || (a.fireAt == b.fireAt && a.seq ≤ b.seq)

/-- The next timer the event loop fires. -/
def pickEarliest : List Timer → Option Timer
  | [] => none
  | t :: ts => some (ts.foldl (fun best x => if timerLE best x then best else x) t)

/-- Remove a fired timer (sequence numbers are unique). -/
def removeTimer (tm : Timer) (l : List Timer) : List Timer :=
  l.filter (fun x => x.seq ≠ tm.seq)

/-- Fire one timer of `waitFor`.  A poll timer runs `func`, whose
report executes lines 673-678: record `isDone`, report success if done
and the deadline has not fired, otherwise call `execute()` again unless
the deadline has fired.  A deadline timer executes lines 682-688: if
`isDone` is still false, set `isTimeoutExceeded` and invoke the
callback with the timeout error (or with null when `noError`). -/
def stepWait (delay timeout : Nat) (noError : Bool) (pred : Nat → Bool)
    (s : WaitState) : WaitState :=
  match pickEarliest s.timers with
  | none => s
  | some tm =>
    let s1 := { s with timers := removeTimer tm s.timers, now := tm.fireAt }
    match tm.kind with
    | .poll =>
      let done := pred s1.attempt
      let s2 := { s1 with attempt := s1.attempt + 1, isDone := done }
      if done && !s2.isTimeoutExceeded then
        { s2 with events := s2.events ++ [.success] }
      else if !s2.isTimeoutExceeded then
        schedExecute delay timeout s2.now s2
      else s2
    | .deadline =>
      if !s1.isDone then
        { s1 with
          isTimeoutExceeded := true,
          events := s1.events ++ [if noError then .noErrorNull else .timeoutError] }
      else s1

/-- Fire up to `fuel` timers. -/
def runWait (delay timeout : Nat) (noError : Bool) (pred : Nat → Bool) :
    Nat → WaitState → WaitState
  | 0, s => s
  | n + 1, s => runWait delay timeout noError pred n (stepWait delay timeout noError pred s)

/-- A whole `waitFor(func, params, callback)` call: the initial
`execute()` at time 0 (line 691; the poll delay is the design constant
20, line 667), then the event loop. -/
def waitForSim (timeout : Nat) (noError : Bool) (pred : Nat → Bool) (fuel : Nat) :
    WaitState :=
  runWait 20 timeout noError pred fuel
    (schedExecute 20 timeout 0
      { timers := [], isDone := false, isTimeoutExceeded := false,
        attempt := 0, now := 0, nextSeq := 0, events := [] })

/-- C2 fails on the code (code bug): with a predicate that always
reports false and a 50 ms timeout (poll delay 20 ms), the caller's
callback is invoked three times, each with a timeout error — once for
each deadline timer accumulated by the per-attempt `execute()` calls —
not exactly once.  Every poll attempt re-schedules a deadline timer
(webDriver.js line 681 is inside `execute`), and after the first
deadline fires, each later deadline timer still sees `isDone === false`
and invokes the callback again; the spec's single-shot settled-flag
behaviour ("a deadline timer started once ... not reset per attempt")
is not what the code does. -/
theorem waitfor_deadline_fires_repeatedly :
    (waitForSim 50 false (fun _ => false) 10).events
      = [.timeoutError, .timeoutError, .timeoutError] := by
  rfl

/-
The delegated element-command surface `_initElement`
(webDriver.js lines 54-105).
-/

/-- The names mirrored onto `driver.element`: every key of the element
prototype whose name does not start with an underscore
(`if (/^_/.test(method)) return;`, webDriver.js line 85).  The element
prototype's key set is abstract (`names`): the webElement module is not
under src/. -/
def mirroredMethodNames (names : List String) : List String :=
  names.filter (fun method => !method.startsWith "_")

/-- A raw JS argument of a `driver.element.m(...)` call after the
selector: either a selector-params object or any other trailing
argument (ordinary argument or the callback). -/
inductive JsArg (P A : Type) where
  | par (p : P)
  | arg (a : A)

/-- Modelled from the spec: `utils.isSelectorParams` (the utils module
is not under src/) — whether the value in the `params` position is a
selector-params object (spec section 4.5: the mirror resolves the
selector, with the optional params, before invoking the element
operation). -/
def isSelectorParams {P A : Type} : JsArg P A → Bool
  | .par _ => true
  | .arg _ => false

/-- What a mirrored call observably does: pass `get`'s error to the
callback (the last trailing argument, `methodArgs[methodArgs.length
- 1]`), or invoke the element's method with the forwarded trailing
arguments (which include the callback). -/
inductive MirrorOutcome (E Elem P A : Type) where
  | errCall (cb : Option (JsArg P A)) (e : E)
  | methodCall (el : Elem) (args : List (JsArg P A))

/-- The mirror built by `_initElement` (webDriver.js lines 86-103):
split the raw arguments after the selector into `getArgs` and
`methodArgs` according to `utils.isSelectorParams(params)`, take the
callback as the last of `methodArgs`, run `self.get`, and on success
apply the element method to `methodArgs`:

  if (utils.isSelectorParams(params)) \x7b getArgs = [selector, params];
    methodArgs = slice(arguments, 2); \x7d
  else \x7b getArgs = [selector]; methodArgs = slice(arguments, 1); \x7d
  var callback = methodArgs[methodArgs.length - 1];
  getArgs.push(function(err, element) \x7b
    if (err) return callback(err);
    element[method].apply(element, methodArgs); \x7d);
  self.get.apply(self, getArgs);

`get` abstracts `driver.get` as a function from the selector and the
optional params to an error or an element. -/
def elementMirror {E Elem P A : Type} (get : String → Option P → Except E Elem)
    (selector : String) (rest : List (JsArg P A)) : MirrorOutcome E Elem P A :=
  let split : Option P × List (JsArg P A) :=
    match rest with
    | first :: more =>
      if isSelectorParams first then
        ((match first with | .par p => some p | .arg _ => none), more)
      else (none, rest)
    | [] => (none, [])
  match get selector split.1 with
  | .error e => .errCall split.2.getLast? e
  | .ok el => .methodCall el split.2

/-- Modelled from the spec: the claim's right-hand side — "calling
driver.get(selector, params?) and, on success, invoking the resulting
element's method with the same trailing arguments; on a get failure the
callback receives that error unchanged" (spec section 4.5). -/
def getThenInvoke {E Elem P A : Type} (get : String → Option P → Except E Elem)
    (selector : String) (params : Option P) (trailing : List (JsArg P A)) :
    MirrorOutcome E Elem P A :=
  match get selector params with
  | .error e => .errCall trailing.getLast? e
  | .ok el => .methodCall el trailing

/-- The optional selector-params object of a raw argument list: present
exactly when the first value after the selector is one. -/
def selectorParamsOf {P A : Type} : List (JsArg P A) → Option P
  | .par p :: _ => some p
  | _ => none

/-- The trailing arguments of a raw argument list (everything after the
selector and the optional selector-params object). -/
def trailingArgsOf {P A : Type} : List (JsArg P A) → List (JsArg P A)
  | .par _ :: more => more
  | rest => rest

/-- C6: a method `m` is mirrored on `driver.element` exactly when its
name is not underscore-prefixed, and for every abstract `get`, selector
and raw argument list, the mirrored call performs exactly what calling
`get` with the selector and the optional selector-params object and
then invoking the element's method with the same trailing arguments
performs — `get`'s error going to the callback unchanged. -/
theorem element_mirror_refines :
    (∀ (names : List String) (m : String),
      m ∈ mirroredMethodNames names ↔ (m ∈ names ∧ m.startsWith "_" = false))
    ∧ ∀ (E Elem P A : Type) (get : String → Option P → Except E Elem)
        (selector : String) (rest : List (JsArg P A)),
        elementMirror get selector rest
          = getThenInvoke get selector (selectorParamsOf rest) (trailingArgsOf rest) := by
  constructor
  · intro names m
    simp [mirroredMethodNames, List.mem_filter]
  · intro E Elem P A get selector rest
    cases rest with
    | nil => rfl
    | cons first more =>
      cases first with
      | par p => rfl
      | arg a => rfl

/-
Session creation (`init`, webDriver.js lines 184-207) and request
construction (`_cmd`, lines 122-136).
-/

/-- A command descriptor as passed to `_cmd`: relative path, optional
method override, optional payload, and the raw-envelope flag. -/
structure CmdParams where
  path : String
  method : Option String
  data : Option JValue
  resNeeded : Bool

/-- The request `_cmd` issues (webDriver.js lines 126-136): path is
`this.sessionBasePath + params.path`, method is
`params.method || this.requestParams.method`. -/
structure RequestOut where
  path : String
  method : String
  data : Option JValue

/-- Request construction from `_cmd` (webDriver.js lines 126-136). -/
def cmdRequest (sessionBasePath : String) (defaultMethod : String)
    (p : CmdParams) : RequestOut :=
  { path := sessionBasePath ++ p.path,
    method := p.method.getD defaultMethod,
    data := p.data }

/-- The session base path before `init`
(`this.sessionBasePath = '/wd/hub/session'`, webDriver.js line 30). -/
def sessionBasePath0 : String := "/wd/hub/session"

/-- The driver's default request method from the constructor
(`method: params.method || 'POST'`, webDriver.js line 28). -/
def constructorMethod (methodParam : Option String) : String :=
  methodParam.getD "POST"

/-- The command descriptor `init` dispatches (webDriver.js lines
186-189): empty relative path, no method override, payload
`desiredCapabilities`, raw envelope requested. -/
def initCmd (caps : JValue) : CmdParams :=
  { path := "",
    method := none,
    data := some (.obj [("desiredCapabilities", caps)]),
    resNeeded := true }

/-- Split a character list on a separator, as JS `str.split(sep)` does
for a one-character separator (structural, so it evaluates in the
kernel). -/
def splitOnChar (c : Char) : List Char → List (List Char)
  | [] => [[]]
  | x :: xs =>
    let rest := splitOnChar c xs
    if x = c then [] :: rest
    else
      match rest with
      | r :: rs => (x :: r) :: rs
      | [] => [[x]]

/-- `locationParts[locationParts.length - 1]` of
`location.split('/')` (webDriver.js lines 197-198). -/
def lastPathSegment (loc : String) : String :=
  String.mk ((splitOnChar '/' loc.toList).getLastD [])

/-- Session-id extraction from `init`'s response (webDriver.js lines
192-201): the body's `sessionId` when truthy, else the last
`/`-segment of the `location` header when truthy, else the error
"Can`t determine session id".  `none` models an absent field/header;
JS string truthiness makes the empty string count as absent. -/
def extractSessionId (sessionId location : Option String) :
    Except String String :=
  match sessionId with
  | some s =>
    if s = "" then extractFromLocation location
    else .ok s
  | none => extractFromLocation location
where
  extractFromLocation : Option String → Except String String
    | some loc =>
      if loc = "" then .error "Can`t determine session id"
      else .ok (lastPathSegment loc)
    | none => .error "Can`t determine session id"

/-- The session base path after a successful `init`
(`self.sessionBasePath = self.sessionBasePath + '/' + self.sessionId`,
webDriver.js line 202). -/
def initBasePath (sessionId : String) : String :=
  sessionBasePath0 ++ "/" ++ sessionId

/-- C7: `init` issues a POST (for a driver constructed without a method
override) of the desiredCapabilities payload to /wd/hub/session and
asks for the raw envelope; the session id is the response body's
`sessionId` when present (non-empty), else the last path segment of the
Location header when present, and `init` fails with an error when
neither is available; and after a successful `init` every subsequent
command's request path is prefixed with /wd/hub/session/ followed by
the session id. -/
theorem session_init_spec :
    (∀ caps : JValue,
      cmdRequest sessionBasePath0 (constructorMethod none) (initCmd caps)
        = { path := "/wd/hub/session", method := "POST",
            data := some (.obj [("desiredCapabilities", caps)]) }
      ∧ (initCmd caps).resNeeded = true)
    ∧ (∀ (s : String) (location : Option String), s ≠ "" →
        extractSessionId (some s) location = .ok s)
    ∧ (∀ loc : String, loc ≠ "" →
        extractSessionId none (some loc) = .ok (lastPathSegment loc))
    ∧ (∃ msg, extractSessionId none none = .error msg)
    ∧ (∀ (sessionId : String) (p : CmdParams) (defaultMethod : String),
        ∃ rest, (cmdRequest (initBasePath sessionId) defaultMethod p).path
          = ("/wd/hub/session/" ++ sessionId) ++ rest) := by
  refine ⟨fun caps => ⟨rfl, rfl⟩, fun s location hs => ?_, fun loc hl => ?_,
    ⟨"Can`t determine session id", rfl⟩, fun sessionId p defaultMethod => ?_⟩
  · simp [extractSessionId, hs]
  · simp [extractSessionId, extractSessionId.extractFromLocation, hl]
  · refine ⟨p.path, ?_⟩
    simp [cmdRequest, initBasePath, sessionBasePath0, String.append_assoc]

/-- Witness for C7: extraction at the stub server's values — body
session id "abc123", and a Location header ending in /session/abc123 —
and a follow-up command path prefixed by the session base path. -/
theorem session_init_spec_witness :
    extractSessionId (some "abc123") none = .ok "abc123"
    ∧ extractSessionId none (some "http://127.0.0.1:4444/wd/hub/session/abc123")
        = .ok "abc123"
    ∧ (∃ rest, (cmdRequest (initBasePath "abc123") "POST"
        { path := "/url", method := some "GET", data := none, resNeeded := false }).path
          = ("/wd/hub/session/" ++ "abc123") ++ rest) := by
  refine ⟨?_, ?_, ?_⟩
  · exact (session_init_spec.2.1) "abc123" none (by decide)
  · have h := (session_init_spec.2.2.1) "http://127.0.0.1:4444/wd/hub/session/abc123"
      (by decide)
    rw [h]
    have hseg : lastPathSegment "http://127.0.0.1:4444/wd/hub/session/abc123"
        = "abc123" := by decide
    rw [hseg]
  · exact (session_init_spec.2.2.2.2) "abc123"
      { path := "/url", method := some "GET", data := none, resNeeded := false } "POST"

/-
`waitForUrlChange` (webDriver.js lines 566-590).
-/

/-- An old/new URL argument of `waitForUrlChange`: absent (JS
null/undefined, or the empty string passed by `waitForRedirect`), a
string, or a regular expression (modelled by its match predicate on a
string, `re.test`). -/
inductive UrlArg where
  | absent
  | str (s : String)
  | regex (test : String → Bool)

/-- JS truthiness of a URL argument (`!oldUrl`): absent and the empty
string are falsy. -/
def UrlArg.falsy : UrlArg → Bool
  | .absent => true
  | .str s => s == ""
  | .regex _ => false

/-- `url.replace(/\?.*$/, '')` (webDriver.js line 576): remove
everything from the first question mark on (URLs contain no
newlines). -/
def stripQuery (url : String) : String :=
  String.mk (url.toList.takeWhile (fun c => c ≠ '?'))

/-- The awaited condition of `waitForUrlChange` (webDriver.js lines
577-580), applied to the current URL with its query string stripped:

  (utils.isRegExp(oldUrl) ? !oldUrl.test(url) : oldUrl !== url) &&
  (!newUrl || (utils.isRegExp(newUrl) ? newUrl.test(url) : newUrl === url))

`utils.isRegExp` ("is a regular expression", spec section 6; the utils
module is not under src/) is the `UrlArg.regex` discrimination; for an
absent old URL `oldUrl !== url` is true against any string. -/
def urlChangeCond (oldUrl newUrl : UrlArg) (currentUrl : String) : Bool :=
  let url := stripQuery currentUrl
  (match oldUrl with
    | .regex test => !(test url)
    | .str s => s != url
    | .absent => true)
  && (newUrl.falsy
      || (match newUrl with
          | .regex test => test url
          | .str s => s == url
          | .absent => true))

/-- The immediate guard of `waitForUrlChange` (webDriver.js lines
568-570): with both URLs falsy the callback receives a local error at
once; otherwise the engine polls the condition above. -/
def waitForUrlChangeStart (oldUrl newUrl : UrlArg) :
    Except String (String → Bool) :=
  if oldUrl.falsy && newUrl.falsy then
    .error "Both of new and old url can`t be falsy."
  else .ok (urlChangeCond oldUrl newUrl)

/-- The claim's old-URL comparison: the stripped URL differs from the
old URL (string inequality, or pattern non-match). -/
def differsFromOld (oldUrl : UrlArg) (strippedUrl : String) : Bool :=
  match oldUrl with
  | .regex test => !(test strippedUrl)
  | .str s => s != strippedUrl
  | .absent => true

/-- The claim's new-URL comparison: the stripped URL equals or matches
the new URL. -/
def matchesNew (newUrl : UrlArg) (strippedUrl : String) : Bool :=
  match newUrl with
  | .regex test => test strippedUrl
  | .str s => s == strippedUrl
  | .absent => true

/-- C8: with both URL arguments falsy, `waitForUrlChange` fails
immediately with a local error; otherwise it polls a condition on the
current URL stripped of its query string, satisfied exactly when the
stripped URL differs from the old URL and — when a new URL is given —
equals or matches the new URL; so with old URL .../index.html and new
URL .../terms.html, a current URL of .../terms.html?x=1 satisfies the
condition while .../index.html does not. -/
theorem wait_for_url_change_cond :
    (∀ oldUrl newUrl : UrlArg, oldUrl.falsy = true → newUrl.falsy = true →
      ∃ msg, waitForUrlChangeStart oldUrl newUrl = .error msg)
    ∧ (∀ oldUrl newUrl : UrlArg, (oldUrl.falsy && newUrl.falsy) = false →
      waitForUrlChangeStart oldUrl newUrl = .ok (urlChangeCond oldUrl newUrl))
    ∧ (∀ (oldUrl newUrl : UrlArg) (currentUrl : String),
      urlChangeCond oldUrl newUrl currentUrl
        = (differsFromOld oldUrl (stripQuery currentUrl)
            && (newUrl.falsy || matchesNew newUrl (stripQuery currentUrl))))
    ∧ urlChangeCond (.str "file:///github/index.html")
        (.str "file:///github/terms.html") "file:///github/terms.html?x=1" = true
    ∧ urlChangeCond (.str "file:///github/index.html")
        (.str "file:///github/terms.html") "file:///github/index.html" = false := by
  refine ⟨fun oldUrl newUrl h1 h2 => ?_, fun oldUrl newUrl h => ?_,
    fun oldUrl newUrl currentUrl => ?_, by decide, by decide⟩
  · exact ⟨"Both of new and old url can`t be falsy.",
      by simp [waitForUrlChangeStart, h1, h2]⟩
  · simp [waitForUrlChangeStart, h]
  · cases oldUrl <;> cases newUrl <;>
      simp [urlChangeCond, differsFromOld, matchesNew, UrlArg.falsy]

/-- Witness for C8: the error guard at two falsy arguments, and the
non-falsy start at the example URLs. -/
theorem wait_for_url_change_cond_witness :
    (∃ msg, waitForUrlChangeStart .absent (.str "") = .error msg)
    ∧ waitForUrlChangeStart (.str "file:///github/index.html")
        (.str "file:///github/terms.html")
      = .ok (urlChangeCond (.str "file:///github/index.html")
          (.str "file:///github/terms.html")) := by
  constructor
  · exact wait_for_url_change_cond.1 .absent (.str "") rfl rfl
  · exact wait_for_url_change_cond.2.1 (.str "file:///github/index.html")
      (.str "file:///github/terms.html") (by decide)

/-
`setTimeout` (webDriver.js lines 441-457) and the protocol-timeouts
table `_protocolTimeoutsHash` (line 49).
-/

/-- The server-enforced timeout categories
(`this._protocolTimeoutsHash = \x7b'page load': 1, script: 1, implicit: 1\x7d`,
webDriver.js line 49). -/
def protocolTimeoutsHash : List String := ["page load", "script", "implicit"]

/-- `self.timeouts[type] = timeout`: update or add one entry of the
timeouts table. -/
def setEntry (table : List (String × Nat)) (ty : String) (ms : Nat) :
    List (String × Nat) :=
  if table.any (fun kv => kv.1 == ty) then
    table.map (fun kv => if kv.1 == ty then (ty, ms) else kv)
  else table ++ [(ty, ms)]

/-- What one `setTimeout(type, timeout, callback)` call does: the HTTP
command it issues (if any), the timeouts table afterwards, and the
callback outcome (`.ok` models `callback(null, self)`). -/
structure SetTimeoutOut where
  issuedCmd : Option CmdParams
  timeouts : List (String × Nat)
  result : Except DriverError Unit

/-- `setTimeout` (webDriver.js lines 441-457): for a server-enforced
category, POST /timeouts and update the local table only after server
success (`if (err) return callback(err); self.timeouts[type] = timeout`);
for any other category, update the local table and succeed without any
HTTP command.  `serverResult` is the `_cmd` outcome of the POST (unused
when no command is issued). -/
def timeoutsCmd (ty : String) (ms : Nat) : CmdParams :=
  { path := "/timeouts",
    method := some "POST",
    data := some (.obj [("type", .str ty), ("ms", .num (Int.ofNat ms))]),
    resNeeded := false }

def setTimeoutRun (table : List (String × Nat)) (ty : String) (ms : Nat)
    (serverResult : Except DriverError Unit) : SetTimeoutOut :=
  if ty ∈ protocolTimeoutsHash then
    { issuedCmd := some (timeoutsCmd ty ms),
      timeouts :=
        match serverResult with
        | .error _ => table
        | .ok _ => setEntry table ty ms,
      result :=
        match serverResult with
        | .error e => .error e
        | .ok _ => .ok () }
  else
    { issuedCmd := none,
      timeouts := setEntry table ty ms,
      result := .ok () }

/-- C10: a timeout category outside the server-enforced set issues no
HTTP command, updates only the local timeouts table and always succeeds
with the driver; a server-enforced category whose /timeouts command
fails leaves the local table unchanged (the entry is updated only after
server success). -/
theorem set_timeout_local_vs_server
    (table : List (String × Nat)) (ty : String) (ms : Nat)
    (serverResult : Except DriverError Unit) :
    (ty ∉ protocolTimeoutsHash →
      (setTimeoutRun table ty ms serverResult).issuedCmd = none
      ∧ (setTimeoutRun table ty ms serverResult).timeouts = setEntry table ty ms
      ∧ (setTimeoutRun table ty ms serverResult).result = .ok ())
    ∧ (∀ e : DriverError, ty ∈ protocolTimeoutsHash → serverResult = .error e →
      (setTimeoutRun table ty ms serverResult).timeouts = table
      ∧ (setTimeoutRun table ty ms serverResult).result = .error e) := by
  constructor
  · intro hty
    simp [setTimeoutRun, hty]
  · intro e hty hres
    subst hres
    simp [setTimeoutRun, hty]

/-- Witness for C10: the client-only category waitFor issues no command
and updates the table; a failing /timeouts for the server-enforced
category script leaves the table unchanged. -/
theorem set_timeout_local_vs_server_witness :
    ((setTimeoutRun [("script", 1000)] "waitFor" 5000 (.ok ())).issuedCmd = none
      ∧ (setTimeoutRun [("script", 1000)] "waitFor" 5000 (.ok ())).timeouts
          = setEntry [("script", 1000)] "waitFor" 5000
      ∧ (setTimeoutRun [("script", 1000)] "waitFor" 5000 (.ok ())).result = .ok ())
    ∧ ((setTimeoutRun [("script", 1000)] "script" 500
          (.error { kind := .transport "boom", params := [] })).timeouts
        = [("script", 1000)]
      ∧ (setTimeoutRun [("script", 1000)] "script" 500
          (.error { kind := .transport "boom", params := [] })).result
        = .error { kind := .transport "boom", params := [] }) := by
  constructor
  · exact (set_timeout_local_vs_server [("script", 1000)] "waitFor" 5000 (.ok ())).1
      (by decide)
  · exact (set_timeout_local_vs_server [("script", 1000)] "script" 500
      (.error { kind := .transport "boom", params := [] })).2
      { kind := .transport "boom", params := [] } (by decide) rfl
